import Mathlib

/-!
Verification of the FPS Survival mock gameplay API (Express server in this
repository) against its natural-language specification.  The server keeps four
in-memory key-value maps (players, weapons, enemies, inventory) and exposes ten
HTTP operations.  We embed each handler as a pure Lean function over an
explicit `GameState`; random draws (`Math.random()`) and generated identifiers
(`uuidv4()`) become explicit parameters, and JS numbers holding integers become
`Int` (rationals `ℚ` where the code keeps fractional values).
-/

namespace FpsApi

/-- Semantics of a JS `Map` keyed by strings: an association list where
`set` replaces the first binding of the key (or appends a fresh one) and
`get` returns the first binding. -/
def mapGet (k : String) : List (String × α) → Option α
  | [] => none
  | (k2, v) :: rest => if k2 = k then some v else mapGet k rest

/-- `Map.prototype.set`: replace the first binding of `k`, or append one. -/
def mapSet (k : String) (v : α) : List (String × α) → List (String × α)
  | [] => [(k, v)]
  | (k2, v2) :: rest => if k2 = k then (k, v) :: rest else (k2, v2) :: mapSet k v rest

/-- `Map.prototype.has`. -/
def mapHas (k : String) (m : List (String × α)) : Bool :=
  (mapGet k m).isSome

/-- Number of bindings of key `k` in the list (1 for a well-formed map that
holds the key). -/
def countKey (k : String) (m : List (String × α)) : Nat :=
  (m.filter (fun e => e.1 == k)).length

/-- A 3-coordinate position, as the `{ x, y, z }` objects in the server. -/
structure Position where
  x : ℚ
  y : ℚ
  z : ℚ
  deriving DecidableEq

/-- A weapon-catalog entry, as seeded by `weapons.set(...)` at startup. -/
structure Weapon where
  id : String
  name : String
  damage : Int
  ammo : Int
  deriving DecidableEq

/-- A player record, as built by `POST /api/players`. -/
structure Player where
  id : String
  name : String
  level : Int
  experience : Int
  health : Int
  armor : Int
  position : Position
  weapons : List String
  createdAt : String
  deriving DecidableEq

/-- An enemy record, as built by `POST /api/enemies/spawn` (`type` is a Lean
keyword, so the field is named `etype`). -/
structure Enemy where
  id : String
  etype : String
  health : Int
  position : Position
  spawnedAt : String
  deriving DecidableEq

/-- An inventory record, as built by `POST /api/players` alongside the player. -/
structure Inventory where
  playerId : String
  medical_kits : Int
  ammo_boxes : Int
  grenades : Int
  deriving DecidableEq

/-- The four global in-memory maps of the server. -/
structure GameState where
  players : List (String × Player)
  weapons : List (String × Weapon)
  enemies : List (String × Enemy)
  inventory : List (String × Inventory)
  deriving DecidableEq

/-- The state right after startup: the four seeded weapons, nothing else. -/
def initialState : GameState where
  players := []
  weapons :=
    [("pistol", { id := "pistol", name := "Pistola 9mm", damage := 25, ammo := 15 }),
     ("rifle", { id := "rifle", name := "Rifle de Asalto", damage := 45, ammo := 30 }),
     ("shotgun", { id := "shotgun", name := "Escopeta", damage := 60, ammo := 8 }),
     ("sniper", { id := "sniper", name := "Rifle de Francotirador", damage := 80, ammo := 5 })]
  enemies := []
  inventory := []

/-- The two domain error kinds of the API (HTTP 404 and 400 respectively). -/
inductive ApiError where
  | NotFound
  | InvalidInput
  deriving DecidableEq

/-- The default display name: `Player_` followed by
`playerId.substring(0, 8)`. -/
def defaultName (playerId : String) : String :=
  "Player_" ++ playerId.take 8

/-- `req.body.name || defaultName`: a missing name or the (falsy) empty
string falls back to the default. -/
def resolveName (name : Option String) (playerId : String) : String :=
  match name with
  | none => defaultName playerId
  | some n => if n = "" then defaultName playerId else n

/-- `POST /api/players`.  The generated `uuidv4()` and the timestamp are
passed in as parameters.  Always succeeds; inserts the player and a fresh
inventory under the same key. -/
def createPlayer (s : GameState) (name : Option String) (playerId createdAt : String) :
    Player × GameState :=
  let newPlayer : Player :=
    { id := playerId
      name := resolveName name playerId
      level := 1
      experience := 0
      health := 100
      armor := 50
      position := { x := 0, y := 0, z := 0 }
      weapons := ["pistol"]
      createdAt := createdAt }
  (newPlayer,
    { s with
      players := mapSet playerId newPlayer s.players
      inventory := mapSet playerId
        { playerId := playerId, medical_kits := 3, ammo_boxes := 5, grenades := 2 }
        s.inventory })

/-- `GET /api/players/:playerId`: 404 when the player is unknown, otherwise
the player together with `inventory.get(playerId)` (an `Option`, exactly as
the JS value may be `undefined`). -/
def getPlayer (s : GameState) (playerId : String) :
    Except ApiError (Player × Option Inventory) :=
  match mapGet playerId s.players with
  | none => .error .NotFound
  | some player => .ok (player, mapGet playerId s.inventory)

/-- `weaponId || 'pistol'`: a missing weapon id or the (falsy) empty string
resolves to the starter pistol. -/
def resolveWeaponId (weaponId : Option String) : String :=
  match weaponId with
  | none => "pistol"
  | some w => if w = "" then "pistol" else w

/-- The success payload of `POST /api/players/:playerId/shoot` (the JS
formats `accuracy` with `toFixed(2)`; we keep the raw rational). -/
structure ShootResult where
  playerId : String
  weaponId : String
  weaponName : String
  damage : Int
  hit : Bool
  accuracy : ℚ
  targetEnemyId : Option String
  deriving DecidableEq

/-- `POST /api/players/:playerId/shoot`.  `accuracy` stands for the draw
`Math.random() * 100`.  Unknown player gives 404, unknown resolved weapon
gives 400; on success the shared ammo counter of the resolved weapon is
decremented by one, floored at zero, and nothing else changes. -/
def shoot (s : GameState) (playerId : String) (weaponId targetEnemyId : Option String)
    (accuracy : ℚ) : Except ApiError (ShootResult × GameState) :=
  match mapGet playerId s.players with
  | none => .error .NotFound
  | some _ =>
    match mapGet (resolveWeaponId weaponId) s.weapons with
    | none => .error .InvalidInput
    | some weapon =>
      let result : ShootResult :=
        { playerId := playerId
          weaponId := weapon.id
          weaponName := weapon.name
          damage := weapon.damage
          hit := decide (accuracy > 30)
          accuracy := accuracy
          targetEnemyId := targetEnemyId }
      let weapon2 : Weapon := { weapon with ammo := max 0 (weapon.ammo - 1) }
      .ok (result, { s with weapons := mapSet (resolveWeaponId weaponId) weapon2 s.weapons })

/-- The four fixed enemy-type labels. -/
def enemyTypes : List String :=
  ["Zombie", "Mutant", "Infected", "Raider"]

/-- `POST /api/enemies/spawn`.  `rType`, `rHealth`, `rx`, `ry`, `rz` stand
for the five independent `Math.random()` draws in `[0,1)`; the generated
`uuidv4()` and timestamp are parameters.  Always succeeds. -/
def spawnEnemy (s : GameState) (enemyId : String) (rType rHealth rx ry rz : ℚ)
    (spawnedAt : String) : Enemy × GameState :=
  let randomType := enemyTypes.getD (⌊rType * (enemyTypes.length : ℚ)⌋).toNat "Zombie"
  let newEnemy : Enemy :=
    { id := enemyId
      etype := randomType
      health := ⌊rHealth * 80⌋ + 20
      position := { x := rx * 100, y := ry * 100, z := rz * 100 }
      spawnedAt := spawnedAt }
  (newEnemy, { s with enemies := mapSet enemyId newEnemy s.enemies })

/-- `GET /api/players/:playerId/inventory`: 404 when no inventory exists. -/
def getInventory (s : GameState) (playerId : String) : Except ApiError Inventory :=
  match mapGet playerId s.inventory with
  | none => .error .NotFound
  | some inv => .ok inv

/-- The response body of `POST /api/players/:playerId/use-item` (optional
fields are only set by the corresponding branch). -/
structure UseItemResult where
  playerId : String
  itemUsed : String
  success : Bool
  message : String
  playerHealth : Option Int := none
  damageCaused : Option Int := none
  ammoRestored : Option Int := none
  deriving DecidableEq

/-- The possible outcomes of use-item: 404 when the inventory is missing; a
JS `TypeError` (uncaught, HTTP 500) would occur if an inventory existed
without its player in the medical-kit branch; otherwise a result record
(success or domain-level failure) plus the resulting state. -/
inductive UseItemResponse where
  | notFound
  | typeError
  | ok (result : UseItemResult) (state : GameState)
  deriving DecidableEq

/-- `POST /api/players/:playerId/use-item`.  `rGrenade` stands for the
`Math.random()` draw of the grenade branch. -/
def useItem (s : GameState) (playerId itemType : String) (rGrenade : ℚ) :
    UseItemResponse :=
  match mapGet playerId s.inventory with
  | none => .notFound
  | some inv =>
    if itemType = "medical_kit" ∧ inv.medical_kits > 0 then
      match mapGet playerId s.players with
      | none => .typeError
      | some player =>
        let inv2 : Inventory := { inv with medical_kits := inv.medical_kits - 1 }
        let player2 : Player := { player with health := min 100 (player.health + 50) }
        .ok
          { playerId := playerId
            itemUsed := itemType
            success := true
            message := "Medical kit used. Health restored to " ++ toString player2.health
            playerHealth := some player2.health }
          { s with
            inventory := mapSet playerId inv2 s.inventory
            players := mapSet playerId player2 s.players }
    else if itemType = "grenade" ∧ inv.grenades > 0 then
      let inv2 : Inventory := { inv with grenades := inv.grenades - 1 }
      .ok
        { playerId := playerId
          itemUsed := itemType
          success := true
          message := "Grenade thrown! Damage radius: 20m"
          damageCaused := some (⌊rGrenade * 100⌋ + 30) }
        { s with inventory := mapSet playerId inv2 s.inventory }
    else if itemType = "ammo_box" ∧ inv.ammo_boxes > 0 then
      let inv2 : Inventory := { inv with ammo_boxes := inv.ammo_boxes - 1 }
      .ok
        { playerId := playerId
          itemUsed := itemType
          success := true
          message := "Ammo resupplied"
          ammoRestored := some 60 }
        { s with inventory := mapSet playerId inv2 s.inventory }
    else
      .ok
        { playerId := playerId
          itemUsed := itemType
          success := false
          message := "No " ++ itemType ++ " available in inventory" }
        s

/-- `POST /api/players/:playerId/level-up`: 404 when the player is unknown,
otherwise unconditionally level + 1, experience 0, health 100, armor 50. -/
def levelUp (s : GameState) (playerId : String) : Except ApiError (Player × GameState) :=
  match mapGet playerId s.players with
  | none => .error .NotFound
  | some player =>
    let player2 : Player :=
      { player with level := player.level + 1, experience := 0, health := 100, armor := 50 }
    .ok (player2, { s with players := mapSet playerId player2 s.players })

/-- `GET /api/stats`: the three domain counts (server time and process
figures are transport-level pass-through). -/
def getStats (s : GameState) : Nat × Nat × Nat :=
  (s.players.length, s.enemies.length, s.weapons.length)

/-- `GET /api/weapons`: the full catalog and its count. -/
def listWeapons (s : GameState) : List Weapon × Nat :=
  (s.weapons.map Prod.snd, s.weapons.length)

/-- Fixture: the state after creating one player (no body name) on the
fresh server; used for concrete witness instances. -/
def wState1 : GameState := (createPlayer initialState none "player-0001" "t0").2

/-- Fixture: the player stored in `wState1`. -/
def wPlayer1 : Player := (createPlayer initialState none "player-0001" "t0").1

/-- Fixture: the response of one pistol shot in `wState1` with accuracy
draw 50. -/
def wShootResult : ShootResult :=
  { playerId := "player-0001", weaponId := "pistol", weaponName := "Pistola 9mm",
    damage := 25, hit := true, accuracy := 50, targetEnemyId := none }

/-- Fixture: `wState1` after that shot decremented the shared pistol ammo. -/
def wState2 : GameState :=
  { wState1 with weapons := mapSet "pistol" ({ id := "pistol", name := "Pistola 9mm", damage := 25, ammo := 14 }) wState1.weapons }

/-! ### Basic lemmas about the map primitives -/

theorem mapGet_mapSet_self (k : String) (v : α) (m : List (String × α)) :
    mapGet k (mapSet k v m) = some v := by
  induction m with
  | nil => simp [mapGet, mapSet]
  | cons e rest ih =>
    obtain ⟨k2, v2⟩ := e
    by_cases h : k2 = k <;> simp [mapGet, mapSet, h, ih]

theorem mapGet_mapSet_ne (k k2 : String) {v : α} {m : List (String × α)} (h : k2 ≠ k) :
    mapGet k2 (mapSet k v m) = mapGet k2 m := by
  induction m with
  | nil => simp [mapGet, mapSet, Ne.symm h]
  | cons e rest ih =>
    obtain ⟨k3, v3⟩ := e
    by_cases h3 : k3 = k
    · subst h3
      simp [mapGet, mapSet, Ne.symm h]
    · simp [mapGet, mapSet, h3, ih]

theorem countKey_nil (k : String) : countKey k ([] : List (String × α)) = 0 := rfl

theorem countKey_cons (k k2 : String) (v : α) (m : List (String × α)) :
    countKey k ((k2, v) :: m) = (if k2 = k then 1 else 0) + countKey k m := by
  by_cases h : k2 = k
  · simp [countKey, List.filter_cons, h]
    omega
  · simp [countKey, List.filter_cons, h]

theorem countKey_eq_zero_iff (k : String) (m : List (String × α)) :
    countKey k m = 0 ↔ mapGet k m = none := by
  induction m with
  | nil => simp [countKey_nil, mapGet]
  | cons e rest ih =>
    obtain ⟨k2, v2⟩ := e
    rw [countKey_cons]
    by_cases h : k2 = k <;> simp [mapGet, h, ih]

theorem countKey_mapSet_of_none (k : String) (v : α) (m : List (String × α))
    (h : mapGet k m = none) : countKey k (mapSet k v m) = 1 := by
  induction m with
  | nil => simp [countKey_nil, countKey_cons, mapSet]
  | cons e rest ih =>
    obtain ⟨k2, v2⟩ := e
    by_cases h2 : k2 = k
    · subst h2
      simp [mapGet] at h
    · simp only [mapGet, h2, if_false] at h
      simp [mapSet, h2, countKey_cons, ih h]

theorem countKey_mapSet_of_some (k : String) (v w : α) (m : List (String × α))
    (h : mapGet k m = some w) : countKey k (mapSet k v m) = countKey k m := by
  induction m with
  | nil => simp [mapGet] at h
  | cons e rest ih =>
    obtain ⟨k2, v2⟩ := e
    by_cases h2 : k2 = k
    · subst h2
      simp [mapSet, countKey_cons]
    · simp only [mapGet, h2, if_false] at h
      simp [mapSet, h2, countKey_cons, ih h]

theorem countKey_mapSet_ne (k k2 : String) {v : α} {m : List (String × α)} (h : k2 ≠ k) :
    countKey k2 (mapSet k v m) = countKey k2 m := by
  induction m with
  | nil => simp [countKey_nil, countKey_cons, mapSet, Ne.symm h]
  | cons e rest ih =>
    obtain ⟨k3, v3⟩ := e
    by_cases h3 : k3 = k
    · subst h3
      simp [mapSet, countKey_cons]
    · simp [mapSet, h3, countKey_cons, ih]

theorem mapHas_eq_true_iff (k : String) (m : List (String × α)) :
    mapHas k m = true ↔ mapGet k m ≠ none := by
  simp [mapHas, Option.isSome_iff_ne_none]

/-! ### The step relation over the ten operations

Handlers that never write to the store (health check, get player, spawn's
message, get inventory, stats, list weapons) and every failing handler leave
the state untouched: the `idle` constructor covers all of them. -/

inductive Step : GameState → GameState → Prop where
  | create (s : GameState) (name : Option String) (playerId createdAt : String) :
      Step s (createPlayer s name playerId createdAt).2
  | shootOk (s : GameState) (playerId : String) (weaponId targetEnemyId : Option String)
      (accuracy : ℚ) (r : ShootResult) (s2 : GameState) :
      shoot s playerId weaponId targetEnemyId accuracy = .ok (r, s2) → Step s s2
  | spawn (s : GameState) (enemyId : String) (rType rHealth rx ry rz : ℚ)
      (spawnedAt : String) :
      Step s (spawnEnemy s enemyId rType rHealth rx ry rz spawnedAt).2
  | useItemOk (s : GameState) (playerId itemType : String) (rGrenade : ℚ)
      (r : UseItemResult) (s2 : GameState) :
      useItem s playerId itemType rGrenade = .ok r s2 → Step s s2
  | levelUpOk (s : GameState) (playerId : String) (p : Player) (s2 : GameState) :
      levelUp s playerId = .ok (p, s2) → Step s s2
  | idle (s : GameState) : Step s s

/-- States reachable from startup by any sequence of the ten operations. -/
inductive Reachable : GameState → Prop where
  | init : Reachable initialState
  | step {s s2 : GameState} : Reachable s → Step s s2 → Reachable s2

/-! ### Shape lemmas: what each successful mutating handler does to the store -/

theorem shoot_ok_shape (s : GameState) (playerId : String)
    (weaponId targetEnemyId : Option String) (accuracy : ℚ)
    (r : ShootResult) (s2 : GameState)
    (h : shoot s playerId weaponId targetEnemyId accuracy = .ok (r, s2)) :
    ∃ w, mapGet playerId s.players ≠ none ∧
      mapGet (resolveWeaponId weaponId) s.weapons = some w ∧
      s2 = { s with
        weapons := mapSet (resolveWeaponId weaponId)
          { w with ammo := max 0 (w.ammo - 1) } s.weapons } := by
  unfold shoot at h
  cases hp : mapGet playerId s.players with
  | none => rw [hp] at h; exact absurd h (by simp)
  | some player =>
    rw [hp] at h
    cases hw : mapGet (resolveWeaponId weaponId) s.weapons with
    | none => rw [hw] at h; exact absurd h (by simp)
    | some w =>
      rw [hw] at h
      simp only [Except.ok.injEq, Prod.mk.injEq] at h
      exact ⟨w, by simp [hp], rfl, h.2.symm⟩

theorem levelUp_ok_shape (s : GameState) (playerId : String) (p2 : Player) (s2 : GameState)
    (h : levelUp s playerId = .ok (p2, s2)) :
    ∃ p, mapGet playerId s.players = some p ∧
      p2 = { p with level := p.level + 1, experience := 0, health := 100, armor := 50 } ∧
      s2 = { s with players := mapSet playerId p2 s.players } := by
  unfold levelUp at h
  cases hp : mapGet playerId s.players with
  | none => rw [hp] at h; exact absurd h (by simp)
  | some p =>
    rw [hp] at h
    simp only [Except.ok.injEq, Prod.mk.injEq] at h
    exact ⟨p, rfl, h.1.symm, by rw [← h.1]; exact h.2.symm⟩

theorem useItem_ok_shape (s : GameState) (playerId itemType : String) (rGrenade : ℚ)
    (r : UseItemResult) (s2 : GameState)
    (h : useItem s playerId itemType rGrenade = .ok r s2) :
    s2.weapons = s.weapons ∧ s2.enemies = s.enemies ∧
    (s2.players = s.players ∨ ∃ p, mapGet playerId s.players = some p ∧
      s2.players = mapSet playerId
        { p with health := min 100 (p.health + 50) } s.players) ∧
    (s2.inventory = s.inventory ∨ ∃ inv inv2, mapGet playerId s.inventory = some inv ∧
      s2.inventory = mapSet playerId inv2 s.inventory) := by
  unfold useItem at h
  split at h
  · exact absurd h (by simp)
  · rename_i inv hi
    split at h
    · split at h
      · exact absurd h (by simp)
      · rename_i hmk p hp
        simp only [UseItemResponse.ok.injEq] at h
        rw [← h.2]
        exact ⟨rfl, rfl, Or.inr ⟨p, hp, rfl⟩, Or.inr ⟨inv, _, hi, rfl⟩⟩
    · split at h
      · simp only [UseItemResponse.ok.injEq] at h
        rw [← h.2]
        exact ⟨rfl, rfl, Or.inl rfl, Or.inr ⟨inv, _, hi, rfl⟩⟩
      · split at h
        · simp only [UseItemResponse.ok.injEq] at h
          rw [← h.2]
          exact ⟨rfl, rfl, Or.inl rfl, Or.inr ⟨inv, _, hi, rfl⟩⟩
        · simp only [UseItemResponse.ok.injEq] at h
          rw [← h.2]
          exact ⟨rfl, rfl, Or.inl rfl, Or.inl rfl⟩

theorem countKey_mapSet_le_one (k : String) (v : α) (m : List (String × α))
    (h : countKey k m ≤ 1) : countKey k (mapSet k v m) = 1 := by
  cases hold : mapGet k m with
  | none => exact countKey_mapSet_of_none k v m hold
  | some w =>
    rw [countKey_mapSet_of_some k v w m hold]
    have h0 : countKey k m ≠ 0 := fun hz => by
      rw [countKey_eq_zero_iff] at hz
      simp [hz] at hold
    omega

theorem mapGet_mapSet_none_iff (k pid : String) (v : α) (m : List (String × α))
    (hold : mapGet pid m ≠ none) :
    mapGet k (mapSet pid v m) = none ↔ mapGet k m = none := by
  by_cases hk : k = pid
  · subst hk
    simp [mapGet_mapSet_self, hold]
  · rw [mapGet_mapSet_ne pid k hk]

/-! ### The inductive store invariant -/

/-- Invariant maintained by every handler: shared weapon ammo never goes
negative, every stored player has health 100 and armor 50 (no handler ever
lowers health, and the only writers set these exact values or keep them
fixed by the clamp), and the inventory map holds exactly one record for
each stored player identifier and none for any other key. -/
def StoreInv (s : GameState) : Prop :=
  (∀ k w, mapGet k s.weapons = some w → 0 ≤ w.ammo) ∧
  (∀ k p, mapGet k s.players = some p → p.health = 100 ∧ p.armor = 50) ∧
  (∀ k, countKey k s.inventory = if mapGet k s.players = none then 0 else 1)

theorem storeInv_init : StoreInv initialState := by
  refine ⟨?_, ?_, ?_⟩
  · intro k w h
    simp only [initialState, mapGet] at h
    repeat' split at h
    all_goals cases h
    all_goals decide
  · intro k p h
    simp [initialState, mapGet] at h
  · intro k
    simp [initialState, countKey_nil, mapGet]

theorem storeInv_step {s s2 : GameState} (hs : StoreInv s) (h : Step s s2) :
    StoreInv s2 := by
  obtain ⟨hw, hp, hi⟩ := hs
  cases h with
  | create name playerId createdAt =>
    refine ⟨fun k w hk => hw k w hk, ?_, ?_⟩
    · intro k p hk
      simp only [createPlayer] at hk
      by_cases hkp : k = playerId
      · subst hkp
        rw [mapGet_mapSet_self] at hk
        cases hk
        exact ⟨rfl, rfl⟩
      · rw [mapGet_mapSet_ne playerId k hkp] at hk
        exact hp k p hk
    · intro k
      simp only [createPlayer]
      by_cases hkp : k = playerId
      · subst hkp
        simp only [mapGet_mapSet_self]
        rw [if_neg (Option.some_ne_none _)]
        apply countKey_mapSet_le_one
        rw [hi k]
        split <;> omega
      · rw [countKey_mapSet_ne playerId k hkp]
        simp only [mapGet_mapSet_ne playerId k hkp]
        exact hi k
  | shootOk playerId weaponId targetEnemyId accuracy r s2 hok =>
    obtain ⟨w0, hpl, hw0, hs2⟩ := shoot_ok_shape s playerId weaponId targetEnemyId
      accuracy r s2 hok
    subst hs2
    refine ⟨?_, fun k p hk => hp k p hk, fun k => hi k⟩
    intro k w hk
    by_cases hk2 : k = resolveWeaponId weaponId
    · subst hk2
      rw [mapGet_mapSet_self] at hk
      cases hk
      exact le_max_left 0 _
    · rw [mapGet_mapSet_ne _ k hk2] at hk
      exact hw k w hk
  | spawn enemyId rType rHealth rx ry rz spawnedAt =>
    exact ⟨fun k w hk => hw k w hk, fun k p hk => hp k p hk, fun k => hi k⟩
  | useItemOk playerId itemType rGrenade r s2 hok =>
    obtain ⟨hweap, _, hplayers, hinv⟩ := useItem_ok_shape s playerId itemType
      rGrenade r s2 hok
    have hplayers_get : ∀ k, mapGet k s2.players = mapGet k s.players ∨
        (∃ p, mapGet playerId s.players = some p ∧
          mapGet k s2.players = if k = playerId
            then some { p with health := min 100 (p.health + 50) }
            else mapGet k s.players) := by
      rcases hplayers with hsame | ⟨p, hpold, hset⟩
      · exact fun k => Or.inl (by rw [hsame])
      · intro k
        refine Or.inr ⟨p, hpold, ?_⟩
        rw [hset]
        by_cases hk : k = playerId
        · subst hk
          simp [mapGet_mapSet_self]
        · simp [mapGet_mapSet_ne playerId k hk, hk]
    refine ⟨?_, ?_, ?_⟩
    · intro k w hk
      rw [hweap] at hk
      exact hw k w hk
    · intro k p hk
      rcases hplayers_get k with hsame | ⟨q, hqold, hcond⟩
      · rw [hsame] at hk
        exact hp k p hk
      · rw [hcond] at hk
        by_cases hk2 : k = playerId
        · rw [if_pos hk2] at hk
          cases hk
          have hq := hp playerId q hqold
          constructor
          · show min 100 (q.health + 50) = 100
            rw [hq.1]
            decide
          · exact hq.2
        · rw [if_neg hk2] at hk
          exact hp k p hk
    · intro k
      have hnone : (mapGet k s2.players = none) = (mapGet k s.players = none) := by
        rcases hplayers_get k with hsame | ⟨q, hqold, hcond⟩
        · rw [hsame]
        · rw [hcond]
          by_cases hk2 : k = playerId
          · subst hk2
            simp [hqold]
          · simp [hk2]
      have hcount : countKey k s2.inventory = countKey k s.inventory := by
        rcases hinv with hsame | ⟨inv, inv2, hiold, hset⟩
        · rw [hsame]
        · rw [hset]
          by_cases hk2 : k = playerId
          · subst hk2
            exact countKey_mapSet_of_some _ _ inv _ hiold
          · exact countKey_mapSet_ne playerId k hk2
      rw [hcount]
      simp only [hnone]
      exact hi k
  | levelUpOk playerId p2 s2 hok =>
    obtain ⟨p, hpold, hp2, hs2⟩ := levelUp_ok_shape s playerId p2 s2 hok
    subst hs2
    refine ⟨fun k w hk => hw k w hk, ?_, ?_⟩
    · intro k q hk
      by_cases hk2 : k = playerId
      · subst hk2
        rw [mapGet_mapSet_self] at hk
        cases hk
        rw [hp2]
        exact ⟨rfl, rfl⟩
      · rw [mapGet_mapSet_ne playerId k hk2] at hk
        exact hp k q hk
    · intro k
      have hnone : (mapGet k (mapSet playerId p2 s.players) = none) =
          (mapGet k s.players = none) := by
        by_cases hk2 : k = playerId
        · subst hk2
          simp [mapGet_mapSet_self, hpold]
        · rw [mapGet_mapSet_ne playerId k hk2]
      simp only [hnone]
      exact hi k
  | idle =>
    exact ⟨hw, hp, hi⟩

/-- Every reachable state satisfies the store invariant. -/
theorem reachable_storeInv {s : GameState} (h : Reachable s) : StoreInv s := by
  induction h with
  | init => exact storeInv_init
  | step _ hstep ih => exact storeInv_step ih hstep

/-! ### Claim theorems -/

/-- C1: a shoot request on an unknown player fails with NotFound; with the
weapon identifier resolved to `pistol` when omitted, a resolved identifier
missing from the catalog fails with InvalidInput, an error distinct from
NotFound. -/
theorem shoot_error_taxonomy (s : GameState) (playerId : String)
    (weaponId targetEnemyId : Option String) (accuracy : ℚ) :
    (mapGet playerId s.players = none →
      shoot s playerId weaponId targetEnemyId accuracy = .error .NotFound) ∧
    (mapGet playerId s.players ≠ none →
      mapGet (resolveWeaponId weaponId) s.weapons = none →
      shoot s playerId weaponId targetEnemyId accuracy = .error .InvalidInput) ∧
    resolveWeaponId none = "pistol" ∧
    ApiError.InvalidInput ≠ ApiError.NotFound := by
  refine ⟨?_, ?_, rfl, by decide⟩
  · intro h
    unfold shoot
    rw [h]
  · intro hpl hw
    cases hp : mapGet playerId s.players with
    | none => exact absurd hp hpl
    | some p =>
      unfold shoot
      rw [hp, hw]

/-- C1 witness: on the initial state an unknown player draws NotFound, and
on a state with one player an unknown weapon id draws InvalidInput. -/
theorem shoot_error_taxonomy_witness :
    shoot initialState "ghost" none none 50 = .error .NotFound ∧
    shoot (createPlayer initialState none "player-0001" "t0").2 "player-0001"
      (some "bazooka") none 50 = .error .InvalidInput := by
  constructor
  · exact (shoot_error_taxonomy initialState "ghost" none none 50).1 (by decide)
  · exact (shoot_error_taxonomy (createPlayer initialState none "player-0001" "t0").2
      "player-0001" (some "bazooka") none 50).2.1 (by decide) (by decide)

/-- C3: a created player starts at level 1, experience 0, health 100,
armor 50, at the origin, owning exactly the pistol; the same operation
stores a 3/5/2 inventory under the same identifier; an omitted or empty
name defaults to `Player_` plus exactly the first 8 identifier characters. -/
theorem createPlayer_spec (s : GameState) (name : Option String)
    (playerId createdAt : String) :
    (createPlayer s name playerId createdAt).1.level = 1 ∧
    (createPlayer s name playerId createdAt).1.experience = 0 ∧
    (createPlayer s name playerId createdAt).1.health = 100 ∧
    (createPlayer s name playerId createdAt).1.armor = 50 ∧
    (createPlayer s name playerId createdAt).1.position = { x := 0, y := 0, z := 0 } ∧
    (createPlayer s name playerId createdAt).1.weapons = ["pistol"] ∧
    mapGet playerId (createPlayer s name playerId createdAt).2.players =
      some (createPlayer s name playerId createdAt).1 ∧
    mapGet playerId (createPlayer s name playerId createdAt).2.inventory =
      some { playerId := playerId, medical_kits := 3, ammo_boxes := 5, grenades := 2 } ∧
    ((name = none ∨ name = some "") →
      (createPlayer s name playerId createdAt).1.name = "Player_" ++ playerId.take 8) ∧
    (8 ≤ playerId.length → (playerId.take 8).length = 8) := by
  refine ⟨rfl, rfl, rfl, rfl, rfl, rfl,
    mapGet_mapSet_self _ _ _, mapGet_mapSet_self _ _ _, ?_, ?_⟩
  · rintro (rfl | rfl)
    · rfl
    · rfl
  · intro h
    rw [String.take_eq]
    rw [show (String.mk (playerId.1.take 8)).length = (playerId.1.take 8).length from rfl,
      List.length_take]
    rcases playerId with ⟨l⟩
    exact Nat.min_eq_left h

/-- C3 witness: creating a player with no name on the initial state. -/
theorem createPlayer_spec_witness :
    (createPlayer initialState none "player-0001" "t0").1.level = 1 ∧
    (createPlayer initialState none "player-0001" "t0").1.health = 100 ∧
    (createPlayer initialState none "player-0001" "t0").1.name =
      "Player_" ++ "player-0001".take 8 ∧
    ("player-0001".take 8).length = 8 := by
  have h := createPlayer_spec initialState none "player-0001" "t0"
  exact ⟨h.1, h.2.2.1, h.2.2.2.2.2.2.2.2.1 (Or.inl rfl),
    h.2.2.2.2.2.2.2.2.2 (by decide)⟩

/-- C4: level-up on an unknown player fails with NotFound; on any existing
player, whatever the prior field values, it increments level by exactly one
and resets experience to 0, health to 100 and armor to 50. -/
theorem levelUp_spec (s : GameState) (playerId : String) :
    (mapGet playerId s.players = none → levelUp s playerId = .error .NotFound) ∧
    (∀ p, mapGet playerId s.players = some p →
      levelUp s playerId = .ok
        ({ p with level := p.level + 1, experience := 0, health := 100, armor := 50 },
          { s with players := mapSet playerId ({ p with level := p.level + 1, experience := 0, health := 100, armor := 50 }) s.players })) := by
  constructor
  · intro h
    unfold levelUp
    rw [h]
  · intro p h
    unfold levelUp
    rw [h]

/-- C4 witness: level-up succeeds on the one stored player (whose
experience is 0 and gates nothing) and fails with NotFound on a ghost. -/
theorem levelUp_spec_witness :
    levelUp (createPlayer initialState none "player-0001" "t0").2 "ghost" =
      .error .NotFound ∧
    levelUp (createPlayer initialState none "player-0001" "t0").2 "player-0001" =
      .ok
        ({ (createPlayer initialState none "player-0001" "t0").1 with
            level := (createPlayer initialState none "player-0001" "t0").1.level + 1,
            experience := 0, health := 100, armor := 50 },
          { (createPlayer initialState none "player-0001" "t0").2 with
            players := mapSet "player-0001" ({ (createPlayer initialState none "player-0001" "t0").1 with level := (createPlayer initialState none "player-0001" "t0").1.level + 1, experience := 0, health := 100, armor := 50 }) (createPlayer initialState none "player-0001" "t0").2.players }) := by
  constructor
  · exact (levelUp_spec (createPlayer initialState none "player-0001" "t0").2 "ghost").1
      (by decide)
  · exact (levelUp_spec (createPlayer initialState none "player-0001" "t0").2
      "player-0001").2 (createPlayer initialState none "player-0001" "t0").1 (by decide)

/-- C8: a successful shoot changes no player, no enemy and no inventory
record — the reported damage is applied to nothing — and the only write is
to the resolved weapon's catalog entry. -/
theorem shoot_frame (s : GameState) (playerId : String)
    (weaponId targetEnemyId : Option String) (accuracy : ℚ)
    (r : ShootResult) (s2 : GameState)
    (h : shoot s playerId weaponId targetEnemyId accuracy = .ok (r, s2)) :
    s2.players = s.players ∧ s2.enemies = s.enemies ∧ s2.inventory = s.inventory ∧
    ∀ k, k ≠ resolveWeaponId weaponId → mapGet k s2.weapons = mapGet k s.weapons := by
  obtain ⟨w, -, -, hs2⟩ := shoot_ok_shape s playerId weaponId targetEnemyId accuracy r s2 h
  subst hs2
  exact ⟨rfl, rfl, rfl, fun k hk => mapGet_mapSet_ne _ k hk⟩

/-- C8 witness: shooting the pistol from the one-player state. -/
theorem shoot_frame_witness :
    ({ (createPlayer initialState none "player-0001" "t0").2 with
        weapons := mapSet "pistol"
          { id := "pistol", name := "Pistola 9mm", damage := 25, ammo := 14 }
          (createPlayer initialState none "player-0001" "t0").2.weapons } : GameState).players =
      (createPlayer initialState none "player-0001" "t0").2.players := by
  exact (shoot_frame (createPlayer initialState none "player-0001" "t0").2 "player-0001"
    none none 50
    { playerId := "player-0001", weaponId := "pistol", weaponName := "Pistola 9mm",
      damage := 25, hit := true, accuracy := 50, targetEnemyId := none }
    ({ (createPlayer initialState none "player-0001" "t0").2 with
        weapons := mapSet "pistol"
          { id := "pistol", name := "Pistola 9mm", damage := 25, ammo := 14 }
          (createPlayer initialState none "player-0001" "t0").2.weapons })
    (by rfl)).1

/-- The one-player fixture state is reachable. -/
theorem wState1_reachable : Reachable wState1 :=
  Reachable.step Reachable.init (Step.create initialState none "player-0001" "t0")

/-- C2: on any reachable state, a successful shoot replaces the resolved
weapon's catalog entry by the same entry with ammo decremented by one and
floored at zero, so the shared ammo count never increases and never goes
below zero; iterating this (each post-state is reachable again) gives the
monotone decrease along any sequence of successful shots. -/
theorem shoot_ammo_decreases (s : GameState) (playerId : String)
    (weaponId targetEnemyId : Option String) (accuracy : ℚ)
    (r : ShootResult) (s2 : GameState) (w : Weapon)
    (hreach : Reachable s)
    (hw : mapGet (resolveWeaponId weaponId) s.weapons = some w)
    (h : shoot s playerId weaponId targetEnemyId accuracy = .ok (r, s2)) :
    mapGet (resolveWeaponId weaponId) s2.weapons =
      some { w with ammo := max 0 (w.ammo - 1) } ∧
    max 0 (w.ammo - 1) ≤ w.ammo ∧ 0 ≤ max 0 (w.ammo - 1) := by
  obtain ⟨w0, -, hw0, hs2⟩ :=
    shoot_ok_shape s playerId weaponId targetEnemyId accuracy r s2 h
  rw [hw] at hw0
  injection hw0 with hw0
  subst hw0
  subst hs2
  have hammo : 0 ≤ w.ammo := (reachable_storeInv hreach).1 _ w hw
  refine ⟨mapGet_mapSet_self _ _ _, ?_, ?_⟩ <;> omega

/-- C2 witness: one pistol shot in the reachable one-player state takes the
shared pistol ammo from 15 to 14. -/
theorem shoot_ammo_decreases_witness :
    mapGet (resolveWeaponId none) wState2.weapons =
      some { id := "pistol", name := "Pistola 9mm", damage := 25,
             ammo := max 0 ((15:Int) - 1) } ∧
    max 0 ((15:Int) - 1) ≤ (15:Int) ∧ (0:Int) ≤ max 0 ((15:Int) - 1) :=
  shoot_ammo_decreases wState1 "player-0001" none none 50 wShootResult wState2
    { id := "pistol", name := "Pistola 9mm", damage := 25, ammo := 15 }
    wState1_reachable (by rfl) (by rfl)

/-- C5: using a medical kit on a player whose inventory holds one
decrements the medical-kit count by one and sets health to
`min 100 (health + 50)`, which never exceeds 100 whatever the prior health
and however often it is repeated. -/
theorem useItem_medicalKit_spec (s : GameState) (playerId : String) (rGrenade : ℚ)
    (inv : Inventory) (p : Player)
    (hinv : mapGet playerId s.inventory = some inv)
    (hp : mapGet playerId s.players = some p)
    (hk : inv.medical_kits > 0) :
    useItem s playerId "medical_kit" rGrenade = .ok
      { playerId := playerId
        itemUsed := "medical_kit"
        success := true
        message := "Medical kit used. Health restored to " ++ toString (min 100 (p.health + 50))
        playerHealth := some (min 100 (p.health + 50)) }
      { s with
        inventory := mapSet playerId ({ inv with medical_kits := inv.medical_kits - 1 }) s.inventory
        players := mapSet playerId ({ p with health := min 100 (p.health + 50) }) s.players } ∧
    min 100 (p.health + 50) ≤ 100 := by
  refine ⟨?_, min_le_left _ _⟩
  simp [useItem, hinv, hp, hk]

/-- C5 witness: the fixture player (health 100, 3 medical kits) uses a
medical kit; the count drops to 2 and health stays at `min 100 150`. -/
theorem useItem_medicalKit_spec_witness :
    useItem wState1 "player-0001" "medical_kit" 0 = .ok
      { playerId := "player-0001"
        itemUsed := "medical_kit"
        success := true
        message := "Medical kit used. Health restored to " ++
          toString (min 100 (wPlayer1.health + 50))
        playerHealth := some (min 100 (wPlayer1.health + 50)) }
      { wState1 with
        inventory := mapSet "player-0001" ({ playerId := "player-0001", medical_kits := (3:Int) - 1, ammo_boxes := 5, grenades := 2 }) wState1.inventory
        players := mapSet "player-0001" ({ wPlayer1 with health := min 100 (wPlayer1.health + 50) }) wState1.players } ∧
    min 100 (wPlayer1.health + 50) ≤ 100 :=
  useItem_medicalKit_spec wState1 "player-0001" 0
    { playerId := "player-0001", medical_kits := 3, ammo_boxes := 5, grenades := 2 }
    wPlayer1 (by rfl) (by rfl) (by decide)

/-- C6: a use-item request on an existing inventory whose item type is not
one of the three recognized values, or whose matched count is zero, answers
success=false and returns the store completely unchanged. -/
theorem useItem_unavailable_spec (s : GameState) (playerId itemType : String)
    (rGrenade : ℚ) (inv : Inventory)
    (hinv : mapGet playerId s.inventory = some inv)
    (hcase : (itemType ≠ "medical_kit" ∧ itemType ≠ "grenade" ∧ itemType ≠ "ammo_box") ∨
      (itemType = "medical_kit" ∧ inv.medical_kits = 0) ∨
      (itemType = "grenade" ∧ inv.grenades = 0) ∨
      (itemType = "ammo_box" ∧ inv.ammo_boxes = 0)) :
    useItem s playerId itemType rGrenade = .ok
      { playerId := playerId, itemUsed := itemType, success := false,
        message := "No " ++ itemType ++ " available in inventory" } s := by
  have h1 : ¬(itemType = "medical_kit" ∧ inv.medical_kits > 0) := by
    rintro ⟨rfl, hgt⟩
    rcases hcase with ⟨ha, -, -⟩ | ⟨-, hb⟩ | ⟨ha, -⟩ | ⟨ha, -⟩
    · exact ha rfl
    · omega
    · exact absurd ha (by decide)
    · exact absurd ha (by decide)
  have h2 : ¬(itemType = "grenade" ∧ inv.grenades > 0) := by
    rintro ⟨rfl, hgt⟩
    rcases hcase with ⟨-, ha, -⟩ | ⟨ha, -⟩ | ⟨-, hb⟩ | ⟨ha, -⟩
    · exact ha rfl
    · exact absurd ha (by decide)
    · omega
    · exact absurd ha (by decide)
  have h3 : ¬(itemType = "ammo_box" ∧ inv.ammo_boxes > 0) := by
    rintro ⟨rfl, hgt⟩
    rcases hcase with ⟨-, -, ha⟩ | ⟨ha, -⟩ | ⟨ha, -⟩ | ⟨-, hb⟩
    · exact ha rfl
    · exact absurd ha (by decide)
    · exact absurd ha (by decide)
    · omega
  simp [useItem, hinv, h1, h2, h3]

/-- C6 witness: an unrecognized item type ("bandage") on the fixture
inventory reports failure and leaves the state untouched. -/
theorem useItem_unavailable_spec_witness :
    useItem wState1 "player-0001" "bandage" 0 = .ok
      { playerId := "player-0001", itemUsed := "bandage", success := false,
        message := "No " ++ "bandage" ++ " available in inventory" } wState1 :=
  useItem_unavailable_spec wState1 "player-0001" "bandage" 0
    { playerId := "player-0001", medical_kits := 3, ammo_boxes := 5, grenades := 2 }
    (by rfl) (Or.inl (by decide))

/-- C7: in every reachable state, a stored player identifier owns exactly
one inventory record under the same key, and the inventory lookup inside
get-player therefore succeeds. -/
theorem player_inventory_pairing (s : GameState) (hreach : Reachable s)
    (playerId : String) (p : Player)
    (hp : mapGet playerId s.players = some p) :
    countKey playerId s.inventory = 1 ∧
    ∃ inv, getPlayer s playerId = .ok (p, some inv) := by
  obtain ⟨-, -, hi⟩ := reachable_storeInv hreach
  have hc := hi playerId
  rw [if_neg (by simp [hp])] at hc
  refine ⟨hc, ?_⟩
  have hns : mapGet playerId s.inventory ≠ none := by
    intro hzero
    have hz := (countKey_eq_zero_iff playerId s.inventory).2 hzero
    omega
  cases hg : mapGet playerId s.inventory with
  | none => exact absurd hg hns
  | some inv =>
    refine ⟨inv, ?_⟩
    unfold getPlayer
    rw [hp, hg]

/-- C7 witness: the fixture player in the reachable one-player state. -/
theorem player_inventory_pairing_witness :
    countKey "player-0001" wState1.inventory = 1 ∧
    ∃ inv, getPlayer wState1 "player-0001" = .ok (wPlayer1, some inv) :=
  player_inventory_pairing wState1 wState1_reachable "player-0001" wPlayer1 (by rfl)

/-- C9: spawning an enemy always succeeds (the operation is total and
records the enemy), its type is one of the four fixed labels, its integer
health lies in [20, 99], and each position coordinate lies in [0, 100). -/
theorem spawnEnemy_spec (s : GameState) (enemyId spawnedAt : String)
    (rType rHealth rx ry rz : ℚ)
    (hT0 : 0 ≤ rType) (hT1 : rType < 1)
    (hH0 : 0 ≤ rHealth) (hH1 : rHealth < 1)
    (hx0 : 0 ≤ rx) (hx1 : rx < 1)
    (hy0 : 0 ≤ ry) (hy1 : ry < 1)
    (hz0 : 0 ≤ rz) (hz1 : rz < 1) :
    (spawnEnemy s enemyId rType rHealth rx ry rz spawnedAt).1.etype ∈ enemyTypes ∧
    20 ≤ (spawnEnemy s enemyId rType rHealth rx ry rz spawnedAt).1.health ∧
    (spawnEnemy s enemyId rType rHealth rx ry rz spawnedAt).1.health ≤ 99 ∧
    0 ≤ (spawnEnemy s enemyId rType rHealth rx ry rz spawnedAt).1.position.x ∧
    (spawnEnemy s enemyId rType rHealth rx ry rz spawnedAt).1.position.x < 100 ∧
    0 ≤ (spawnEnemy s enemyId rType rHealth rx ry rz spawnedAt).1.position.y ∧
    (spawnEnemy s enemyId rType rHealth rx ry rz spawnedAt).1.position.y < 100 ∧
    0 ≤ (spawnEnemy s enemyId rType rHealth rx ry rz spawnedAt).1.position.z ∧
    (spawnEnemy s enemyId rType rHealth rx ry rz spawnedAt).1.position.z < 100 ∧
    mapGet enemyId (spawnEnemy s enemyId rType rHealth rx ry rz spawnedAt).2.enemies =
      some (spawnEnemy s enemyId rType rHealth rx ry rz spawnedAt).1 := by
  have hlen : (enemyTypes.length : ℚ) = 4 := by norm_num [enemyTypes]
  have hfl : ⌊rType * (enemyTypes.length : ℚ)⌋ < 4 := by
    rw [hlen, Int.floor_lt]
    push_cast
    nlinarith
  have hn : (⌊rType * (enemyTypes.length : ℚ)⌋).toNat < 4 := by omega
  have hmem : ∀ n, n < 4 → enemyTypes.getD n "Zombie" ∈ enemyTypes := by decide
  have hh0 : (0:ℤ) ≤ ⌊rHealth * 80⌋ := Int.floor_nonneg.2 (by nlinarith)
  have hh1 : ⌊rHealth * 80⌋ < 80 := by
    rw [Int.floor_lt]
    push_cast
    nlinarith
  refine ⟨hmem _ hn, ?_, ?_, ?_, ?_, ?_, ?_, ?_, ?_, mapGet_mapSet_self _ _ _⟩
  · show 20 ≤ ⌊rHealth * 80⌋ + 20
    omega
  · show ⌊rHealth * 80⌋ + 20 ≤ 99
    omega
  · show 0 ≤ rx * 100
    nlinarith
  · show rx * 100 < 100
    nlinarith
  · show 0 ≤ ry * 100
    nlinarith
  · show ry * 100 < 100
    nlinarith
  · show 0 ≤ rz * 100
    nlinarith
  · show rz * 100 < 100
    nlinarith

/-- C9 witness: spawning with every random draw equal to 1/2 yields an
Infected with health 60 at position (50, 50, 50). -/
theorem spawnEnemy_spec_witness :
    (spawnEnemy initialState "enemy-0001" (1/2) (1/2) (1/2) (1/2) (1/2) "t1").1.etype ∈
      enemyTypes ∧
    20 ≤ (spawnEnemy initialState "enemy-0001" (1/2) (1/2) (1/2) (1/2) (1/2) "t1").1.health ∧
    (spawnEnemy initialState "enemy-0001" (1/2) (1/2) (1/2) (1/2) (1/2) "t1").1.health ≤ 99 ∧
    0 ≤ (spawnEnemy initialState "enemy-0001" (1/2) (1/2) (1/2) (1/2) (1/2) "t1").1.position.x ∧
    (spawnEnemy initialState "enemy-0001" (1/2) (1/2) (1/2) (1/2) (1/2) "t1").1.position.x < 100 ∧
    0 ≤ (spawnEnemy initialState "enemy-0001" (1/2) (1/2) (1/2) (1/2) (1/2) "t1").1.position.y ∧
    (spawnEnemy initialState "enemy-0001" (1/2) (1/2) (1/2) (1/2) (1/2) "t1").1.position.y < 100 ∧
    0 ≤ (spawnEnemy initialState "enemy-0001" (1/2) (1/2) (1/2) (1/2) (1/2) "t1").1.position.z ∧
    (spawnEnemy initialState "enemy-0001" (1/2) (1/2) (1/2) (1/2) (1/2) "t1").1.position.z < 100 ∧
    mapGet "enemy-0001"
        (spawnEnemy initialState "enemy-0001" (1/2) (1/2) (1/2) (1/2) (1/2) "t1").2.enemies =
      some (spawnEnemy initialState "enemy-0001" (1/2) (1/2) (1/2) (1/2) (1/2) "t1").1 :=
  spawnEnemy_spec initialState "enemy-0001" "t1" (1/2) (1/2) (1/2) (1/2) (1/2)
    (by norm_num) (by norm_num) (by norm_num) (by norm_num) (by norm_num)
    (by norm_num) (by norm_num) (by norm_num) (by norm_num) (by norm_num)

/-- C10: in every reachable state every stored player has health exactly
100 and armor exactly 50, so the medical kit's `min 100 (health + 50)`
computation is a no-op on health. -/
theorem health_armor_constant (s : GameState) (hreach : Reachable s)
    (playerId : String) (p : Player)
    (hp : mapGet playerId s.players = some p) :
    p.health = 100 ∧ p.armor = 50 ∧ min 100 (p.health + 50) = p.health := by
  obtain ⟨-, hpl, -⟩ := reachable_storeInv hreach
  obtain ⟨h1, h2⟩ := hpl playerId p hp
  refine ⟨h1, h2, ?_⟩
  rw [h1]
  decide

/-- C10 witness: the fixture player in the reachable one-player state. -/
theorem health_armor_constant_witness :
    wPlayer1.health = 100 ∧ wPlayer1.armor = 50 ∧
    min 100 (wPlayer1.health + 50) = wPlayer1.health :=
  health_armor_constant wState1 wState1_reachable "player-0001" wPlayer1 (by rfl)

end FpsApi
